import Mathlib

/-!
Shallow embedding of the Composite Risk Scoring & Explanation Engine of
`src/ai-service/main.py` (defi-risk-monitor). Numeric values are modelled
as rationals; Python dictionaries keyed by fixed string literals are
modelled as association lists; Python `None` becomes `Option`; a raised
exception (the service wraps every internal exception into an HTTP 500)
becomes `Except.error`. The invocation time read by `datetime.utcnow()`
is passed as an explicit `now` parameter. Display strings that the code
builds by interpolating numbers are modelled by their fixed textual part
(the interpolated digits are presentation only and no claim depends on
them).
-/

/-- `PositionData` of main.py (lines 37-47). -/
structure PositionData where
  id : String
  pool_address : String
  chain_id : Int
  token0_address : String
  token1_address : String
  liquidity : ℚ
  entry_price0 : ℚ
  entry_price1 : ℚ
  current_value : ℚ
  entry_value : ℚ
deriving DecidableEq

/-- `PoolStateData` of main.py (lines 49-59); `tvl_usd`, `volume_24h` and
`fees_24h` are `Optional[float]`. -/
structure PoolStateData where
  pool_address : String
  chain_id : Int
  current_tick : Int
  sqrt_price_x96 : String
  liquidity : String
  token0_price : ℚ
  token1_price : ℚ
  tvl_usd : Option ℚ
  volume_24h : Option ℚ
  fees_24h : Option ℚ
deriving DecidableEq

/-- `RiskMetricsData` of main.py (lines 61-66). -/
structure RiskMetricsData where
  overall_risk_score : ℚ
  impermanent_loss : ℚ
  liquidity_score : ℚ
  volatility_score : ℚ
  concentration_risk : ℚ
deriving DecidableEq

/-- `PredictionRequest` of main.py (lines 68-72). -/
structure PredictionRequest where
  position : PositionData
  pool_state : PoolStateData
  risk_metrics : RiskMetricsData
  historical_data : Option (List PoolStateData)
deriving DecidableEq

/-- `AIRiskFactor` of main.py (lines 74-80); the `feature_values` and
`shap_values` dicts become association lists. -/
structure AIRiskFactor where
  factor_id : String
  factor_name : String
  importance_score : ℚ
  contribution : ℚ
  feature_values : List (String × ℚ)
  shap_values : Option (List (String × ℚ))
deriving DecidableEq

/-- `AIRecommendation` of main.py (lines 82-87). -/
structure AIRecommendation where
  action : String
  reasoning : String
  confidence : ℚ
  urgency : String
  expected_impact : Option String
deriving DecidableEq

/-- `PredictionResult` of main.py (lines 89-95); the `predictions` dict
becomes an association list and the timestamp a rational clock value. -/
structure PredictionResult where
  overall_risk_score : ℚ
  confidence : ℚ
  risk_factors : List AIRiskFactor
  predictions : List (String × ℚ)
  model_version : String
  prediction_timestamp : ℚ
deriving DecidableEq

/-- One entry of the `risk_factors` list built by `explain_prediction`
(main.py lines 270-277): a dict with keys factor_name, explanation,
importance, evidence. -/
structure ExplainedFactor where
  factor_name : String
  explanation : String
  importance : ℚ
  evidence : List String
deriving DecidableEq

/-- `ExplanationResult` of main.py (lines 97-103); `summary`, which the
code builds by `+=` of sentence fragments, is the list of those fragments. -/
structure ExplanationResult where
  summary : List String
  key_insights : List String
  risk_factors : List ExplainedFactor
  recommendations : List AIRecommendation
  confidence : ℚ
  explanation_method : String
deriving DecidableEq

/-- Python `d[k]` on a string-keyed dict: `none` models a `KeyError`. -/
def dict_get (m : List (String × ℚ)) (k : String) : Option ℚ :=
  (m.find? (fun p => p.1 == k)).map Prod.snd

/-- Python `d.get(k, 0)`. -/
def dict_getD (m : List (String × ℚ)) (k : String) : ℚ :=
  (dict_get m k).getD 0

/-- Python `x or 0` on an `Optional[float]` (`None` and `0.0` both give 0). -/
def orZero (x : Option ℚ) : ℚ :=
  x.getD 0

/-- `_extract_features` (main.py lines 292-302): the flat feature dict,
here a structure since the code only ever uses these seven fixed keys. -/
structure Features where
  tvl_usd : ℚ
  volume_24h : ℚ
  current_il : ℚ
  liquidity_score : ℚ
  volatility_score : ℚ
  position_size : ℚ
  price_ratio : ℚ
deriving DecidableEq

/-- `_extract_features` (main.py lines 292-302). -/
def extract_features (req : PredictionRequest) : Features where
  tvl_usd := orZero req.pool_state.tvl_usd
  volume_24h := orZero req.pool_state.volume_24h
  current_il := req.risk_metrics.impermanent_loss
  liquidity_score := req.risk_metrics.liquidity_score
  volatility_score := req.risk_metrics.volatility_score
  position_size := req.position.current_value
  price_ratio := req.pool_state.token0_price / max req.pool_state.token1_price (1 / 1000)

/-- `_predict_impermanent_loss` (main.py lines 304-309):
`min(1.0, volatility * 0.6 + price_divergence * 0.4)`; note the source has
no lower clamp. -/
def predict_impermanent_loss (f : Features) : ℚ :=
  min 1 (f.volatility_score * 0.6 + |Features.price_ratio f - 1| * 0.4)

/-- The 5-entry numpy array built by `_predict_protocol_risk`
(main.py lines 313-319), in source order. -/
def protocol_feature_array (f : Features) : List ℚ :=
  [f.tvl_usd, f.volume_24h, f.volatility_score, f.liquidity_score, f.position_size]

/-- `ProtocolRiskScorer._default_risk_score` (main.py lines 156-161).
`features[0]` is tvl_usd and `features[1]` is volume_24h (see
`protocol_feature_array`), although the source's inline comment calls the
second component volatility. -/
def default_risk_score (features : List ℚ) : ℚ :=
  let tvl_score := min 1 (max 0 ((1000000 - features.getD 0 0) / 1000000))
  let vol_score := min 1 (max 0 (features.getD 1 0 / 100))
  (tvl_score + vol_score) / 2

/-- `ProtocolRiskScorer` state (main.py lines 130-136). The scaler and the
IsolationForest are external library objects; their composed
`decision_function` on a feature vector is modelled as the abstract map
`anomaly_score`. -/
structure ProtocolRiskScorer where
  is_fitted : Bool
  anomaly_score : List ℚ → ℚ

/-- `ProtocolRiskScorer.predict_risk` (main.py lines 144-154): the fitted
branch is `max(0, min(1, (0.5 - anomaly_score) / 1.0))`, the unfitted
branch falls back to `_default_risk_score`. -/
def ProtocolRiskScorer.predict_risk (s : ProtocolRiskScorer) (features : List ℚ) : ℚ :=
  if s.is_fitted then
    max 0 (min 1 ((0.5 - s.anomaly_score features) / 1))
  else
    default_risk_score features

/-- `_predict_protocol_risk` (main.py lines 311-320). -/
def predict_protocol_risk (s : ProtocolRiskScorer) (f : Features) : ℚ :=
  ProtocolRiskScorer.predict_risk s (protocol_feature_array f)

/-- The dict returned by `MEVRiskDetector.detect_mev_risk`
(main.py lines 180-185). -/
structure MEVRisks where
  sandwich_risk : ℚ
  frontrun_risk : ℚ
  arbitrage_risk : ℚ
  overall_mev_risk : ℚ
deriving DecidableEq

/-- `MEVRiskDetector.detect_mev_risk` (main.py lines 170-185) on numeric
tvl and volume. -/
def detect_mev_risk (tvl volume : ℚ) : MEVRisks :=
  let sandwich_risk := min 1 (volume / max tvl 1) * 0.3
  let frontrun_risk : ℚ := if volume > 100000 then 0.2 else 0.1
  let arbitrage_risk : ℚ := 0.15
  { sandwich_risk := sandwich_risk
    frontrun_risk := frontrun_risk
    arbitrage_risk := arbitrage_risk
    overall_mev_risk := (sandwich_risk + frontrun_risk + arbitrage_risk) / 3 }

/-- The `feature_values` dict of the MEV factor: `_generate_risk_factors`
passes the whole `mev_risks` dict (main.py line 358). -/
def mev_feature_values (m : MEVRisks) : List (String × ℚ) :=
  [("sandwich_risk", m.sandwich_risk), ("frontrun_risk", m.frontrun_risk),
   ("arbitrage_risk", m.arbitrage_risk), ("overall_mev_risk", m.overall_mev_risk)]

/-- `_generate_risk_factors` (main.py lines 322-361). -/
def generate_risk_factors (features : Features) (il_risk protocol_risk : ℚ)
    (mev_risks : MEVRisks) : List AIRiskFactor :=
  (if il_risk > 0.3 then
    [{ factor_id := "impermanent_loss"
       factor_name := "Impermanent Loss Risk"
       importance_score := il_risk
       contribution := il_risk * 0.4
       feature_values := [("volatility", features.volatility_score),
                          ("price_divergence", |Features.price_ratio features - 1|)]
       shap_values := some [("volatility", 0.6), ("price_divergence", 0.4)] }]
   else []) ++
  (if protocol_risk > 0.3 then
    [{ factor_id := "protocol_risk"
       factor_name := "Protocol Security Risk"
       importance_score := protocol_risk
       contribution := protocol_risk * 0.3
       feature_values := [("tvl", features.tvl_usd), ("volume", features.volume_24h)]
       shap_values := none }]
   else []) ++
  (if mev_risks.overall_mev_risk > 0.2 then
    [{ factor_id := "mev_risk"
       factor_name := "MEV Exploitation Risk"
       importance_score := mev_risks.overall_mev_risk
       contribution := mev_risks.overall_mev_risk * 0.3
       feature_values := mev_feature_values mev_risks
       shap_values := none }]
   else [])

/-- The composite of `predict_risk` (main.py line 226):
`il_risk * 0.4 + protocol_risk * 0.3 + mev_risks['overall_mev_risk'] * 0.3`
with no further clamp. -/
def combine_risks (il_risk protocol_risk overall_mev_risk : ℚ) : ℚ :=
  il_risk * 0.4 + protocol_risk * 0.3 + overall_mev_risk * 0.3

/-- `AIRiskService.predict_risk` (main.py lines 211-247). When `tvl_usd` or
`volume_24h` is `None`, `detect_mev_risk` evaluates `max(None, 1)` or
`None / x` and the resulting TypeError is caught and re-raised as an HTTP
500 (lines 245-247), modelled as `Except.error`. `now` is the value
`datetime.utcnow()` returns during this invocation. -/
def service_predict_risk (scorer : ProtocolRiskScorer) (now : ℚ)
    (req : PredictionRequest) : Except String PredictionResult :=
  let features := extract_features req
  let il_risk := predict_impermanent_loss features
  let protocol_risk := predict_protocol_risk scorer features
  match req.pool_state.tvl_usd, req.pool_state.volume_24h with
  | some tvl, some volume =>
    let mev_risks := detect_mev_risk tvl volume
    Except.ok
      { overall_risk_score := combine_risks il_risk protocol_risk mev_risks.overall_mev_risk
        confidence := 0.85
        risk_factors := generate_risk_factors features il_risk protocol_risk mev_risks
        predictions := [("impermanent_loss_risk", il_risk), ("protocol_risk", protocol_risk),
                        ("mev_risk", mev_risks.overall_mev_risk), ("liquidation_risk", 0.1)]
        model_version := "1.0.0-alpha"
        prediction_timestamp := now }
  | _, _ => Except.error "Prediction failed: TypeError"

/-- The risk-level label of `explain_prediction` (main.py line 253):
HIGH if the supplied overall score exceeds 0.7, else MEDIUM if it exceeds
0.4, else LOW. -/
def risk_level_label (score : ℚ) : String :=
  if score > 0.7 then "HIGH" else if score > 0.4 then "MEDIUM" else "LOW"

/-- The impermanent-loss clause of the summary (main.py line 257). -/
def il_clause : String :=
  "Primary concern is impermanent loss due to price divergence."

/-- The protocol clause of the summary (main.py line 259). -/
def protocol_clause : String :=
  "Protocol-level risks detected."

/-- The MEV clause of the summary (main.py line 261). -/
def mev_clause : String :=
  "MEV exploitation risk is elevated."

/-- The summary built by `explain_prediction` (main.py lines 253-261) as
the list of appended sentence fragments: the risk-level fragment
(its interpolated numeric score omitted), then one clause per supplied
sub-score exceeding 0.5, in source order. -/
def build_summary (overall il protocol mev : ℚ) : List String :=
  let s := ["Your position has " ++ risk_level_label overall ++ " risk"]
  let s := if il > 0.5 then s ++ [il_clause] else s
  let s := if protocol > 0.5 then s ++ [protocol_clause] else s
  if mev > 0.5 then s ++ [mev_clause] else s

/-- The impermanent-loss insight string (main.py line 369). -/
def il_insight : String :=
  "Price volatility patterns suggest high impermanent loss probability in next 24-48 hours"

/-- The low-TVL insight string (main.py line 372). -/
def low_tvl_insight : String :=
  "Low TVL pool detected - liquidity risk may compound during market stress"

/-- The MEV insight string (main.py line 375). -/
def mev_insight : String :=
  "Pool characteristics indicate elevated MEV bot activity - consider timing of transactions"

/-- The low-TVL guard of `_generate_insights` (main.py line 371):
Python `tvl_usd and tvl_usd < 1000000`, so a missing or zero TVL is falsy
and suppresses the insight. -/
def low_tvl_flag (tvl : Option ℚ) : Bool :=
  match tvl with
  | none => false
  | some v => if v = 0 then false else decide (v < 1000000)

/-- `_generate_insights` (main.py lines 363-377); `il` and `mev` are the
values the caller read from the supplied `predictions` dict, `tvl` is
`request.pool_state.tvl_usd`. -/
def generate_insights (il mev : ℚ) (tvl : Option ℚ) : List String :=
  let insights : List String := []
  let insights := if il > 0.6 then insights ++ [il_insight] else insights
  let insights := if low_tvl_flag tvl then insights ++ [low_tvl_insight] else insights
  if mev > 0.4 then insights ++ [mev_insight] else insights

/-- The reduce-position recommendation (main.py lines 384-390). -/
def reduce_position_rec : AIRecommendation where
  action := "Consider reducing position size"
  reasoning := "AI models predict high risk conditions with 85% confidence"
  confidence := 0.85
  urgency := "soon"
  expected_impact := some "Reduce potential losses by 40-60%"

/-- The MEV-protection recommendation (main.py lines 393-399). -/
def mev_protection_rec : AIRecommendation where
  action := "Use MEV protection tools"
  reasoning := "High MEV risk detected - flashbots or similar protection recommended"
  confidence := 0.78
  urgency := "immediate"
  expected_impact := some "Prevent sandwich attacks"

/-- `_generate_ai_recommendations` (main.py lines 379-401); `overall` is
the supplied `overall_risk_score`, `mev` the supplied
`predictions['mev_risk']`. -/
def generate_ai_recommendations (overall mev : ℚ) : List AIRecommendation :=
  let recommendations : List AIRecommendation := []
  let recommendations :=
    if overall > 0.7 then recommendations ++ [reduce_position_rec] else recommendations
  if mev > 0.5 then recommendations ++ [mev_protection_rec] else recommendations

/-- `_explain_factor` (main.py lines 403-412), with the interpolated
percentage omitted from each fixed template. -/
def explain_factor (f : AIRiskFactor) : String :=
  if f.factor_id == "impermanent_loss" then
    "Price volatility analysis indicates probability of significant impermanent loss"
  else if f.factor_id == "protocol_risk" then
    "Protocol anomaly detection flagged unusual patterns"
  else if f.factor_id == "mev_risk" then
    "MEV bot activity analysis shows exploitation probability"
  else
    "AI analysis identified " ++ f.factor_name ++ " with importance"

/-- `_generate_evidence` (main.py lines 414-422), with the interpolated
feature value omitted from each fixed template. -/
def generate_evidence (f : AIRiskFactor) : List String :=
  if f.factor_id == "impermanent_loss" then
    ["Volatility score", "Price divergence detected"]
  else []

/-- `AIRiskService.explain_prediction` (main.py lines 249-290). Each
`prediction.predictions[...]` access on a missing key raises a KeyError
that the handler re-raises as an HTTP 500 (lines 288-290), modelled as
`Except.error`; the accesses happen in source order (lines 256, 258, 260). -/
def explain_prediction (pred : PredictionResult) (req : PredictionRequest) :
    Except String ExplanationResult :=
  match dict_get pred.predictions "impermanent_loss_risk" with
  | none => Except.error "Explanation failed: KeyError impermanent_loss_risk"
  | some il =>
    match dict_get pred.predictions "protocol_risk" with
    | none => Except.error "Explanation failed: KeyError protocol_risk"
    | some protocol =>
      match dict_get pred.predictions "mev_risk" with
      | none => Except.error "Explanation failed: KeyError mev_risk"
      | some mev =>
        Except.ok
          { summary := build_summary pred.overall_risk_score il protocol mev
            key_insights := generate_insights il mev req.pool_state.tvl_usd
            risk_factors := pred.risk_factors.map (fun f =>
              { factor_name := f.factor_name
                explanation := explain_factor f
                importance := f.importance_score
                evidence := generate_evidence f })
            recommendations := generate_ai_recommendations pred.overall_risk_score mev
            confidence := pred.confidence
            explanation_method := "AI-powered analysis with feature importance" }

/-- The heuristic written as the spec states it (section 4.2): the second
summand reads `volatility_score / 100`, to be compared with
`default_risk_score`, whose second summand reads the array slot holding
volume_24h. -/
def spec_default_risk_score (tvl_usd volatility_score : ℚ) : ℚ :=
  0.5 * (min 1 (max 0 ((1000000 - tvl_usd) / 1000000))) +
  0.5 * (min 1 (max 0 (volatility_score / 100)))

/-- An unfitted `ProtocolRiskScorer`: the heuristic branch of
`predict_risk` is taken and `anomaly_score` is never consulted. -/
def scorer0 : ProtocolRiskScorer where
  is_fitted := false
  anomaly_score := fun _ => 0

/-- A concrete position snapshot used to evaluate the embedding. -/
def position0 : PositionData where
  id := "pos-1"
  pool_address := "0xpool"
  chain_id := 1
  token0_address := "0xa"
  token1_address := "0xb"
  liquidity := 0
  entry_price0 := 1
  entry_price1 := 1
  current_value := 0
  entry_value := 0

/-- A concrete pool snapshot: TVL 1,000,000 USD, 24h volume 0, equal
token prices. -/
def pool0 : PoolStateData where
  pool_address := "0xpool"
  chain_id := 1
  current_tick := 0
  sqrt_price_x96 := "0"
  liquidity := "0"
  token0_price := 1
  token1_price := 1
  tvl_usd := some 1000000
  volume_24h := some 0
  fees_24h := none

/-- All-zero precomputed risk metrics. -/
def metrics0 : RiskMetricsData where
  overall_risk_score := 0
  impermanent_loss := 0
  liquidity_score := 0
  volatility_score := 0
  concentration_risk := 0

/-- A concrete scoring request built from the snapshots above. -/
def req0 : PredictionRequest where
  position := position0
  pool_state := pool0
  risk_metrics := metrics0
  historical_data := none

/-- The result `service_predict_risk scorer0 0 req0` evaluates to:
il = 0, protocol = 0, mev = 1/12, overall = 1/40, no factor emitted. -/
def res0 : PredictionResult where
  overall_risk_score := 1 / 40
  confidence := 0.85
  risk_factors := []
  predictions := [("impermanent_loss_risk", 0), ("protocol_risk", 0),
                  ("mev_risk", 1 / 12), ("liquidation_risk", 0.1)]
  model_version := "1.0.0-alpha"
  prediction_timestamp := 0

/-- `res0` with the later invocation timestamp 1. -/
def res1 : PredictionResult :=
  { res0 with prediction_timestamp := 1 }

/-- A feature set with negative volatility score and balanced prices. -/
def features_neg : Features where
  tvl_usd := 0
  volume_24h := 0
  current_il := 0
  liquidity_score := 0
  volatility_score := -10
  position_size := 0
  price_ratio := 1

/-- The feature set of the spec's Example 2: tvl, volume and volatility
all zero, token prices equal (price_ratio 1). -/
def features_zero : Features where
  tvl_usd := 0
  volume_24h := 0
  current_il := 0
  liquidity_score := 0
  volatility_score := 0
  position_size := 0
  price_ratio := 1

theorem service_predict_risk_req0 :
    service_predict_risk scorer0 0 req0 = Except.ok res0 := by
  norm_num [service_predict_risk, scorer0, req0, res0, pool0, position0, metrics0,
    extract_features, predict_impermanent_loss, predict_protocol_risk,
    ProtocolRiskScorer.predict_risk, default_risk_score, protocol_feature_array,
    detect_mev_risk, combine_risks, generate_risk_factors, orZero, min_def, max_def]

/-- C1 counterexample: on the feature set `features_neg` (volatility score
-10, price ratio 1) the impermanent-loss predictor returns -6, outside
[0,1]: the source applies `min(1.0, ...)` with no lower clamp. -/
theorem C1_counterexample :
    predict_impermanent_loss features_neg = -6 ∧
    ¬ (0 ≤ predict_impermanent_loss features_neg) := by
  norm_num [predict_impermanent_loss, features_neg, min_def]

theorem il_bounds (f : Features) (h : 0 ≤ f.volatility_score) :
    0 ≤ predict_impermanent_loss f ∧ predict_impermanent_loss f ≤ 1 := by
  unfold predict_impermanent_loss
  refine ⟨le_min (by norm_num) ?_, min_le_left _ _⟩
  have h1 : 0 ≤ |Features.price_ratio f - 1| := abs_nonneg _
  nlinarith

theorem protocol_bounds (s : ProtocolRiskScorer) (arr : List ℚ) :
    0 ≤ ProtocolRiskScorer.predict_risk s arr ∧
    ProtocolRiskScorer.predict_risk s arr ≤ 1 := by
  unfold ProtocolRiskScorer.predict_risk
  split
  · exact ⟨le_max_left 0 _, max_le (by norm_num) (min_le_left _ _)⟩
  · unfold default_risk_score
    have ht0 : (0:ℚ) ≤ min 1 (max 0 ((1000000 - arr.getD 0 0) / 1000000)) :=
      le_min (by norm_num) (le_max_left 0 _)
    have ht1 : min 1 (max 0 ((1000000 - arr.getD 0 0) / 1000000)) ≤ 1 := min_le_left _ _
    have hv0 : (0:ℚ) ≤ min 1 (max 0 (arr.getD 1 0 / 100)) :=
      le_min (by norm_num) (le_max_left 0 _)
    have hv1 : min 1 (max 0 (arr.getD 1 0 / 100)) ≤ 1 := min_le_left _ _
    constructor
    · apply div_nonneg (by linarith) (by norm_num)
    · rw [div_le_one (by norm_num)]
      linarith

theorem mev_bounds (tvl volume : ℚ) (h : 0 ≤ volume) :
    0 ≤ (detect_mev_risk tvl volume).overall_mev_risk ∧
    (detect_mev_risk tvl volume).overall_mev_risk ≤ 1 := by
  unfold detect_mev_risk
  simp only
  have hmax : (0:ℚ) < max tvl 1 := lt_of_lt_of_le one_pos (le_max_right tvl 1)
  have hs0 : (0:ℚ) ≤ min 1 (volume / max tvl 1) :=
    le_min (by norm_num) (div_nonneg h hmax.le)
  have hs1 : min 1 (volume / max tvl 1) ≤ 1 := min_le_left _ _
  have hsand0 : (0:ℚ) ≤ min 1 (volume / max tvl 1) * 0.3 := by nlinarith
  have hsand1 : min 1 (volume / max tvl 1) * 0.3 ≤ 0.3 := by nlinarith
  have hfr : (0:ℚ) ≤ (if volume > 100000 then (0.2:ℚ) else 0.1) ∧
      (if volume > 100000 then (0.2:ℚ) else 0.1) ≤ 0.2 := by
    split <;> norm_num
  constructor
  · apply div_nonneg (by linarith [hfr.1]) (by norm_num)
  · rw [div_le_one (by norm_num)]
    linarith [hfr.2]

theorem combine_bounds (il protocol mev : ℚ)
    (h1 : 0 ≤ il ∧ il ≤ 1) (h2 : 0 ≤ protocol ∧ protocol ≤ 1)
    (h3 : 0 ≤ mev ∧ mev ≤ 1) :
    0 ≤ combine_risks il protocol mev ∧ combine_risks il protocol mev ≤ 1 := by
  unfold combine_risks
  obtain ⟨a1, a2⟩ := h1
  obtain ⟨b1, b2⟩ := h2
  obtain ⟨c1, c2⟩ := h3
  constructor <;> nlinarith

/-- C1 (amended): for every feature set whose volatility score and 24h
volume are nonnegative, the impermanent-loss output, the protocol output
(fitted or unfitted scorer), the overall MEV output and the composite
score all lie in [0,1]; without the nonnegativity assumptions the
impermanent-loss and MEV outputs can be negative, since the source clamps
them only from above (see the counterexample). -/
theorem C1_amended (scorer : ProtocolRiskScorer) (f : Features)
    (hvol : 0 ≤ f.volatility_score) (hvolume : 0 ≤ f.volume_24h) :
    (0 ≤ predict_impermanent_loss f ∧ predict_impermanent_loss f ≤ 1) ∧
    (0 ≤ predict_protocol_risk scorer f ∧ predict_protocol_risk scorer f ≤ 1) ∧
    (0 ≤ (detect_mev_risk f.tvl_usd f.volume_24h).overall_mev_risk ∧
      (detect_mev_risk f.tvl_usd f.volume_24h).overall_mev_risk ≤ 1) ∧
    (0 ≤ combine_risks (predict_impermanent_loss f) (predict_protocol_risk scorer f)
        (detect_mev_risk f.tvl_usd f.volume_24h).overall_mev_risk ∧
      combine_risks (predict_impermanent_loss f) (predict_protocol_risk scorer f)
        (detect_mev_risk f.tvl_usd f.volume_24h).overall_mev_risk ≤ 1) := by
  have h1 := il_bounds f hvol
  have h2 := protocol_bounds scorer (protocol_feature_array f)
  have h3 := mev_bounds f.tvl_usd f.volume_24h hvolume
  exact ⟨h1, h2, h3, combine_bounds _ _ _ h1 h2 h3⟩

/-- C1 witness: the amended bound at the concrete unfitted scorer and the
all-zero feature set. -/
theorem C1_amended_witness :
    (0 ≤ predict_impermanent_loss features_zero ∧ predict_impermanent_loss features_zero ≤ 1) ∧
    (0 ≤ predict_protocol_risk scorer0 features_zero ∧
      predict_protocol_risk scorer0 features_zero ≤ 1) ∧
    (0 ≤ (detect_mev_risk features_zero.tvl_usd features_zero.volume_24h).overall_mev_risk ∧
      (detect_mev_risk features_zero.tvl_usd features_zero.volume_24h).overall_mev_risk ≤ 1) ∧
    (0 ≤ combine_risks (predict_impermanent_loss features_zero)
        (predict_protocol_risk scorer0 features_zero)
        (detect_mev_risk features_zero.tvl_usd features_zero.volume_24h).overall_mev_risk ∧
      combine_risks (predict_impermanent_loss features_zero)
        (predict_protocol_risk scorer0 features_zero)
        (detect_mev_risk features_zero.tvl_usd features_zero.volume_24h).overall_mev_risk ≤ 1) :=
  C1_amended scorer0 features_zero (by norm_num [features_zero]) (by norm_num [features_zero])

/-- C2: the unfitted heuristic evaluated by the embedding. On the feature
array [tvl, volume, volatility, liquidity, position] = [0, 0, 100, 0, 0]
the source returns 0.5 because its second summand reads `features[1]`
(the 24h volume), while the spec's formula, whose second summand is
`volatility_score / 100`, gives 1 — the source's own inline comment says
the summand measures volatility. On the spec's Example 2 (all-zero
features, equal prices) both agree: the protocol risk is 0.5 and a
"Protocol Security Risk" factor is emitted. -/
theorem C2_eval :
    default_risk_score [0, 0, 100, 0, 0] = 0.5 ∧
    spec_default_risk_score 0 100 = 1 ∧
    predict_protocol_risk scorer0 features_zero = 0.5 ∧
    (generate_risk_factors features_zero (predict_impermanent_loss features_zero)
        (predict_protocol_risk scorer0 features_zero)
        (detect_mev_risk 0 0)).map AIRiskFactor.factor_name
      = ["Protocol Security Risk"] := by
  refine ⟨?_, ?_, ?_, ?_⟩
  · norm_num [default_risk_score, min_def, max_def]
  · norm_num [spec_default_risk_score, min_def, max_def]
  · norm_num [predict_protocol_risk, ProtocolRiskScorer.predict_risk, scorer0,
      features_zero, protocol_feature_array, default_risk_score, min_def, max_def]
  · norm_num [generate_risk_factors, predict_impermanent_loss, predict_protocol_risk,
      ProtocolRiskScorer.predict_risk, scorer0, features_zero, protocol_feature_array,
      default_risk_score, detect_mev_risk, min_def, max_def]

/-- C3: for every successful scoring call the returned overall risk score
equals exactly il * 0.4 + protocol * 0.3 + mev * 0.3 of the three sub-risk
predictor outputs; the source (main.py line 226) applies no clamp, so the
identity holds for all inputs. -/
theorem C3_weights (scorer : ProtocolRiskScorer) (now : ℚ) (req : PredictionRequest)
    (res : PredictionResult) (h : service_predict_risk scorer now req = Except.ok res) :
    res.overall_risk_score =
      predict_impermanent_loss (extract_features req) * 0.4 +
      predict_protocol_risk scorer (extract_features req) * 0.3 +
      (detect_mev_risk (orZero req.pool_state.tvl_usd)
        (orZero req.pool_state.volume_24h)).overall_mev_risk * 0.3 := by
  unfold service_predict_risk at h
  cases h1 : req.pool_state.tvl_usd <;> cases h2 : req.pool_state.volume_24h <;>
    rw [h1, h2] at h <;> simp at h
  obtain ⟨rfl⟩ := h.symm
  simp [combine_risks, orZero]

/-- C3 witness: the weight identity at the concrete request req0. -/
theorem C3_weights_witness :
    res0.overall_risk_score =
      predict_impermanent_loss (extract_features req0) * 0.4 +
      predict_protocol_risk scorer0 (extract_features req0) * 0.3 +
      (detect_mev_risk (orZero req0.pool_state.tvl_usd)
        (orZero req0.pool_state.volume_24h)).overall_mev_risk * 0.3 :=
  C3_weights scorer0 0 req0 res0 service_predict_risk_req0

/-- C4: a risk factor is emitted iff its sub-risk strictly exceeds its
threshold (impermanent loss 0.3, protocol 0.3, MEV 0.2); the emitted
factor ids appear in the order impermanent_loss, protocol_risk, mev_risk;
each factor's importance equals the sub-risk value and its contribution
equals importance times the composite weight (0.4, 0.3, 0.3). -/
theorem C4_factors (features : Features) (il protocol : ℚ) (m : MEVRisks) :
    ((generate_risk_factors features il protocol m).map AIRiskFactor.factor_id).Sublist
        ["impermanent_loss", "protocol_risk", "mev_risk"] ∧
    ("impermanent_loss" ∈ (generate_risk_factors features il protocol m).map
        AIRiskFactor.factor_id ↔ il > 0.3) ∧
    ("protocol_risk" ∈ (generate_risk_factors features il protocol m).map
        AIRiskFactor.factor_id ↔ protocol > 0.3) ∧
    ("mev_risk" ∈ (generate_risk_factors features il protocol m).map
        AIRiskFactor.factor_id ↔ m.overall_mev_risk > 0.2) ∧
    (∀ fac ∈ generate_risk_factors features il protocol m,
      (fac.factor_id = "impermanent_loss" →
        fac.importance_score = il ∧ fac.contribution = il * 0.4) ∧
      (fac.factor_id = "protocol_risk" →
        fac.importance_score = protocol ∧ fac.contribution = protocol * 0.3) ∧
      (fac.factor_id = "mev_risk" →
        fac.importance_score = m.overall_mev_risk ∧
        fac.contribution = m.overall_mev_risk * 0.3)) := by
  unfold generate_risk_factors
  by_cases h1 : il > 0.3 <;> by_cases h2 : protocol > 0.3 <;>
    by_cases h3 : m.overall_mev_risk > 0.2 <;>
      simp +decide [h1, h2, h3]

/-- C5 counterexample: two invocations of the scoring service on the
identical request req0 with the unchanged registry scorer0, one at clock
value 0 and one at clock value 1, return results that differ (in the
prediction_timestamp field, which the source sets to datetime.utcnow()). -/
theorem C5_counterexample :
    service_predict_risk scorer0 0 req0 ≠ service_predict_risk scorer0 1 req0 := by
  have h1 : service_predict_risk scorer0 1 req0 = Except.ok res1 := by
    norm_num [service_predict_risk, scorer0, req0, res0, res1, pool0, position0, metrics0,
      extract_features, predict_impermanent_loss, predict_protocol_risk,
      ProtocolRiskScorer.predict_risk, default_risk_score, protocol_feature_array,
      detect_mev_risk, combine_risks, generate_risk_factors, orZero, min_def, max_def]
  rw [service_predict_risk_req0, h1]
  intro h
  have := congrArg (fun r => match r with | Except.ok p => p.prediction_timestamp | _ => 2) h
  simp [res0, res1] at this

def erase_timestamp (r : PredictionResult) : PredictionResult :=
  { r with prediction_timestamp := 0 }

/-- C5 (amended): the scoring service is deterministic up to the
prediction_timestamp field: with unchanged registry state, two
invocations on the identical request agree on every other field of the
result (and on whether they fail), whatever their invocation times. -/
theorem C5_amended (scorer : ProtocolRiskScorer) (req : PredictionRequest) (t1 t2 : ℚ) :
    Except.map erase_timestamp (service_predict_risk scorer t1 req) =
    Except.map erase_timestamp (service_predict_risk scorer t2 req) := by
  unfold service_predict_risk
  cases h1 : req.pool_state.tvl_usd <;> cases h2 : req.pool_state.volume_24h <;>
    simp [h1, h2, Except.map, erase_timestamp]

theorem build_summary_eq (o il protocol mev : ℚ) :
    build_summary o il protocol mev =
      ["Your position has " ++ risk_level_label o ++ " risk"]
      ++ (if il > 0.5 then [il_clause] else [])
      ++ (if protocol > 0.5 then [protocol_clause] else [])
      ++ (if mev > 0.5 then [mev_clause] else []) := by
  unfold build_summary
  by_cases h1 : il > 0.5 <;> by_cases h2 : protocol > 0.5 <;> by_cases h3 : mev > 0.5 <;>
    simp [h1, h2, h3]

theorem risk_level_label_high (s : ℚ) : risk_level_label s = "HIGH" ↔ s > 0.7 := by
  unfold risk_level_label
  split_ifs with h1 h2
  · simp [h1]
  · constructor
    · intro h; exact absurd h (by decide)
    · intro h; exact absurd h h1
  · constructor
    · intro h; exact absurd h (by decide)
    · intro h; exact absurd h h1

theorem risk_level_label_medium (s : ℚ) :
    risk_level_label s = "MEDIUM" ↔ (s > 0.4 ∧ s ≤ 0.7) := by
  unfold risk_level_label
  split_ifs with h1 h2
  · constructor
    · intro h; exact absurd h (by decide)
    · intro h; linarith [h.2]
  · constructor
    · intro _; exact ⟨h2, not_lt.mp h1⟩
    · intro _; rfl
  · constructor
    · intro h; exact absurd h (by decide)
    · intro h; exact absurd h.1 h2

theorem risk_level_label_low (s : ℚ) : risk_level_label s = "LOW" ↔ s ≤ 0.4 := by
  unfold risk_level_label
  split_ifs with h1 h2
  · constructor
    · intro h; exact absurd h (by decide)
    · intro h; linarith
  · constructor
    · intro h; exact absurd h (by decide)
    · intro h; linarith
  · constructor
    · intro _; exact not_lt.mp h2
    · intro _; rfl

/-- C6: explain builds its summary from the supplied result alone: given
the three sub-scores read from the supplied predictions map, the summary
is the risk-level clause (classifying the supplied overall score as HIGH
iff it exceeds 0.7, MEDIUM iff it exceeds 0.4 but not 0.7, LOW otherwise,
so exactly 0.7 is MEDIUM and exactly 0.4 is LOW) followed by one clause
per supplied sub-score strictly exceeding 0.5, in the order impermanent
loss, protocol, MEV; nothing is recomputed from the factor list or the
request. -/
theorem C6_summary (pred : PredictionResult) (req : PredictionRequest) (il protocol mev : ℚ)
    (hil : dict_get pred.predictions "impermanent_loss_risk" = some il)
    (hp : dict_get pred.predictions "protocol_risk" = some protocol)
    (hm : dict_get pred.predictions "mev_risk" = some mev) :
    ∃ res, explain_prediction pred req = Except.ok res ∧
      res.summary =
        ["Your position has " ++ risk_level_label pred.overall_risk_score ++ " risk"]
        ++ (if il > 0.5 then [il_clause] else [])
        ++ (if protocol > 0.5 then [protocol_clause] else [])
        ++ (if mev > 0.5 then [mev_clause] else []) ∧
      (risk_level_label pred.overall_risk_score = "HIGH" ↔
        pred.overall_risk_score > 0.7) ∧
      (risk_level_label pred.overall_risk_score = "MEDIUM" ↔
        (pred.overall_risk_score > 0.4 ∧ pred.overall_risk_score ≤ 0.7)) ∧
      (risk_level_label pred.overall_risk_score = "LOW" ↔
        pred.overall_risk_score ≤ 0.4) := by
  unfold explain_prediction
  rw [hil, hp, hm]
  exact ⟨_, rfl, build_summary_eq _ _ _ _, risk_level_label_high _,
    risk_level_label_medium _, risk_level_label_low _⟩

def pred_hi : PredictionResult where
  overall_risk_score := 0.75
  confidence := 0.85
  risk_factors := []
  predictions := [("impermanent_loss_risk", 0.6), ("protocol_risk", 0.2),
                  ("mev_risk", 0.1), ("liquidation_risk", 0.1)]
  model_version := "1.0.0-alpha"
  prediction_timestamp := 0

theorem dict_get_pred_hi_il :
    dict_get pred_hi.predictions "impermanent_loss_risk" = some 0.6 := by
  simp +decide [dict_get, pred_hi]

theorem dict_get_pred_hi_protocol :
    dict_get pred_hi.predictions "protocol_risk" = some 0.2 := by
  simp +decide [dict_get, pred_hi]

theorem dict_get_pred_hi_mev :
    dict_get pred_hi.predictions "mev_risk" = some 0.1 := by
  simp +decide [dict_get, pred_hi]

/-- C6 witness: on the hand-crafted result pred_hi (overall 0.75,
il 0.6, protocol 0.2, mev 0.1) the summary is the HIGH clause followed by
the impermanent-loss clause only. -/
theorem C6_summary_witness :
    ∃ res, explain_prediction pred_hi req0 = Except.ok res ∧
      res.summary = ["Your position has " ++ risk_level_label pred_hi.overall_risk_score
        ++ " risk", il_clause] ∧
      risk_level_label pred_hi.overall_risk_score = "HIGH" := by
  obtain ⟨res, h1, h2, h3, _, _⟩ := C6_summary pred_hi req0 0.6 0.2 0.1
    dict_get_pred_hi_il dict_get_pred_hi_protocol dict_get_pred_hi_mev
  refine ⟨res, h1, ?_, h3.mpr (by norm_num [pred_hi])⟩
  rw [h2, if_pos (by norm_num), if_neg (by norm_num), if_neg (by norm_num)]
  rfl

theorem recs_ne : reduce_position_rec ≠ mev_protection_rec := by
  intro h
  have h2 := congrArg AIRecommendation.action h
  simp +decide [reduce_position_rec, mev_protection_rec] at h2

theorem mem_reduce_position (overall mev : ℚ) :
    reduce_position_rec ∈ generate_ai_recommendations overall mev ↔ overall > 0.7 := by
  unfold generate_ai_recommendations
  by_cases h1 : overall > 0.7 <;> by_cases h2 : mev > 0.5 <;> simp [h1, h2, recs_ne]

theorem mem_mev_protection (overall mev : ℚ) :
    mev_protection_rec ∈ generate_ai_recommendations overall mev ↔ mev > 0.5 := by
  unfold generate_ai_recommendations
  by_cases h1 : overall > 0.7 <;> by_cases h2 : mev > 0.5 <;>
    simp [h1, h2, Ne.symm recs_ne]

/-- C7: the explanation's recommendation list contains the
reduce-position recommendation (urgency soon) iff the supplied overall
risk score exceeds 0.7, and the MEV-protection recommendation (urgency
immediate) iff the supplied mev_risk sub-score exceeds 0.5. -/
theorem C7_recommendations (pred : PredictionResult) (req : PredictionRequest)
    (il protocol mev : ℚ)
    (hil : dict_get pred.predictions "impermanent_loss_risk" = some il)
    (hp : dict_get pred.predictions "protocol_risk" = some protocol)
    (hm : dict_get pred.predictions "mev_risk" = some mev) :
    ∃ res, explain_prediction pred req = Except.ok res ∧
      (reduce_position_rec ∈ res.recommendations ↔ pred.overall_risk_score > 0.7) ∧
      (mev_protection_rec ∈ res.recommendations ↔ mev > 0.5) ∧
      reduce_position_rec.urgency = "soon" ∧
      mev_protection_rec.urgency = "immediate" := by
  unfold explain_prediction
  rw [hil, hp, hm]
  exact ⟨_, rfl, mem_reduce_position _ _, mem_mev_protection _ _, rfl, rfl⟩

/-- C7 witness: with the supplied overall risk score 0.75 the
reduce-position recommendation with urgency soon is in the list. -/
theorem C7_recommendations_witness :
    ∃ res, explain_prediction pred_hi req0 = Except.ok res ∧
      reduce_position_rec ∈ res.recommendations ∧
      reduce_position_rec.urgency = "soon" := by
  obtain ⟨res, h1, h2, _, h4, _⟩ := C7_recommendations pred_hi req0 0.6 0.2 0.1
    dict_get_pred_hi_il dict_get_pred_hi_protocol dict_get_pred_hi_mev
  exact ⟨res, h1, h2.mpr (by norm_num [pred_hi]), h4⟩

theorem generate_insights_mem (il mev : ℚ) (tvl : Option ℚ) :
    (il_insight ∈ generate_insights il mev tvl ↔ il > 0.6) ∧
    (low_tvl_insight ∈ generate_insights il mev tvl ↔ low_tvl_flag tvl = true) ∧
    (mev_insight ∈ generate_insights il mev tvl ↔ mev > 0.4) := by
  unfold generate_insights
  by_cases h1 : il > 0.6 <;> by_cases h2 : low_tvl_flag tvl = true <;>
    by_cases h3 : mev > 0.4 <;>
      simp +decide [h1, h2, h3, il_insight, low_tvl_insight, mev_insight]

theorem low_tvl_flag_iff (tvl : Option ℚ) :
    low_tvl_flag tvl = true ↔ ∃ v, tvl = some v ∧ v ≠ 0 ∧ v < 1000000 := by
  cases tvl with
  | none => simp [low_tvl_flag]
  | some v => by_cases h : v = 0 <;> simp [low_tvl_flag, h]

/-- C8 counterexample: with an absent TVL, which the claim says is
treated as zero and hence strictly below 1,000,000, the source emits no
low-TVL insight: Python's `tvl_usd and tvl_usd < 1000000` is falsy for
None (and for 0.0). -/
theorem C8_counterexample :
    orZero none < 1000000 ∧ low_tvl_insight ∉ generate_insights 0 0 none := by
  constructor
  · norm_num [orZero]
  · have h1 : ¬ ((0.6:ℚ) < 0) := by norm_num
    have h3 : ¬ ((0.4:ℚ) < 0) := by norm_num
    simp [generate_insights, low_tvl_flag, h1, h3]

/-- C8 (amended): the explanation's insight list contains the
impermanent-loss insight iff the supplied il sub-score exceeds 0.6, the
low-TVL insight iff the pool's TVL is present, nonzero and strictly below
1,000,000 (an absent or zero TVL emits no insight), and the MEV insight
iff the supplied mev sub-score exceeds 0.4, each rule independent. -/
theorem C8_amended (pred : PredictionResult) (req : PredictionRequest)
    (il protocol mev : ℚ)
    (hil : dict_get pred.predictions "impermanent_loss_risk" = some il)
    (hp : dict_get pred.predictions "protocol_risk" = some protocol)
    (hm : dict_get pred.predictions "mev_risk" = some mev) :
    ∃ res, explain_prediction pred req = Except.ok res ∧
      res.key_insights = generate_insights il mev req.pool_state.tvl_usd ∧
      (il_insight ∈ res.key_insights ↔ il > 0.6) ∧
      (low_tvl_insight ∈ res.key_insights ↔
        ∃ v, req.pool_state.tvl_usd = some v ∧ v ≠ 0 ∧ v < 1000000) ∧
      (mev_insight ∈ res.key_insights ↔ mev > 0.4) := by
  unfold explain_prediction
  rw [hil, hp, hm]
  obtain ⟨m1, m2, m3⟩ := generate_insights_mem il mev req.pool_state.tvl_usd
  exact ⟨_, rfl, rfl, m1, m2.trans (low_tvl_flag_iff _), m3⟩

/-- C8 witness: the amended insight rules at the concrete result pred_hi
and request req0. -/
theorem C8_amended_witness :
    ∃ res, explain_prediction pred_hi req0 = Except.ok res ∧
      res.key_insights = generate_insights 0.6 0.1 req0.pool_state.tvl_usd ∧
      (il_insight ∈ res.key_insights ↔ (0.6:ℚ) > 0.6) ∧
      (low_tvl_insight ∈ res.key_insights ↔
        ∃ v, req0.pool_state.tvl_usd = some v ∧ v ≠ 0 ∧ v < 1000000) ∧
      (mev_insight ∈ res.key_insights ↔ (0.1:ℚ) > 0.4) :=
  C8_amended pred_hi req0 0.6 0.2 0.1
    dict_get_pred_hi_il dict_get_pred_hi_protocol dict_get_pred_hi_mev

/-- C9: explain returns a result iff the supplied predictions map holds
all three expected keys impermanent_loss_risk, protocol_risk and
mev_risk; a missing key makes it fail with an error (the KeyError is
re-raised as an HTTP 500) instead of returning an ExplanationResult. -/
theorem C9_missing_key (pred : PredictionResult) (req : PredictionRequest) :
    (∃ res, explain_prediction pred req = Except.ok res) ↔
      ((dict_get pred.predictions "impermanent_loss_risk").isSome ∧
       (dict_get pred.predictions "protocol_risk").isSome ∧
       (dict_get pred.predictions "mev_risk").isSome) := by
  unfold explain_prediction
  cases h1 : dict_get pred.predictions "impermanent_loss_risk" <;>
    cases h2 : dict_get pred.predictions "protocol_risk" <;>
      cases h3 : dict_get pred.predictions "mev_risk" <;> simp

/-- C10: every successful scoring call returns confidence exactly 0.85
and a liquidation_risk entry of exactly 0.1, independent of the request:
both are hard-coded in the source (main.py lines 233 and 239). -/
theorem C10_constants (scorer : ProtocolRiskScorer) (now : ℚ) (req : PredictionRequest)
    (res : PredictionResult) (h : service_predict_risk scorer now req = Except.ok res) :
    res.confidence = 0.85 ∧ dict_get res.predictions "liquidation_risk" = some 0.1 := by
  unfold service_predict_risk at h
  cases h1 : req.pool_state.tvl_usd <;> cases h2 : req.pool_state.volume_24h <;>
    rw [h1, h2] at h <;> simp at h
  obtain ⟨rfl⟩ := h.symm
  constructor
  · rfl
  · simp +decide [dict_get]

/-- C10 witness: the hard-coded constants at the concrete request req0. -/
theorem C10_constants_witness :
    res0.confidence = 0.85 ∧ dict_get res0.predictions "liquidation_risk" = some 0.1 :=
  C10_constants scorer0 0 req0 res0 service_predict_risk_req0
